import Mathlib

/-!
Formal model of the `software-inventory-collector` charm (`src/charm.py`),
with verified properties of its configuration-synthesis and
health-assessment (reconciliation) logic.

The charm's handlers are embedded as pure Lean functions.  External
collaborators (Juju config store, relation data, the spawned collector
process, the resource fetcher, the filesystem) are passed in explicitly as
values or functions, and a raised Python exception is modelled as the
`Except.error` branch of a result, paired with the state the handler had
already produced when the exception escaped.
-/

namespace InventoryCollector

/-- `COLLECTOR_SNAP` class attribute (charm.py line 37). -/
def COLLECTOR_SNAP : String := "software-inventory-collector"

/-- `CONFIG_PATH` class attribute (charm.py line 38). -/
def CONFIG_PATH : String := "/var/snap/" ++ COLLECTOR_SNAP ++ "/current/collector.yaml"

/-! ### base64 and UTF-8 decoding

`render_config` (line 134) runs `b64decode(...).decode("UTF-8")` on the
`juju_ca_cert` config value.  We embed Python's `base64.b64decode` (default
`validate=False`: characters outside the alphabet are discarded, the
remaining length including padding must be a multiple of four) followed by
a standard UTF-8 decoder (rejecting truncated, overlong, surrogate and
out-of-range sequences, as `bytes.decode` does). -/

def B64_ALPHABET : List Char :=
  "ABCDEFGHIJKLMNOPQRSTUVWXYZabcdefghijklmnopqrstuvwxyz0123456789+/".toList

/-- Index of a character in the base64 alphabet, if any. -/
def b64Index (c : Char) : Option Nat :=
  B64_ALPHABET.findIdx? (fun x => x == c)

/-- Decode a run of 6-bit values into bytes.  A run of length `4k+1` is
invalid (`binascii.Error`), signalled by `none`. -/
def b64decodeVals : List Nat → Option (List Nat)
  | [] => some []
  | [_] => none
  | [a, b] => some [a * 4 + b / 16]
  | [a, b, c] => some [a * 4 + b / 16, (b % 16) * 16 + c / 4]
  | a :: b :: c :: d :: rest =>
      (b64decodeVals rest).map (fun tl =>
        (a * 4 + b / 16) :: ((b % 16) * 16 + c / 4) :: ((c % 4) * 64 + d) :: tl)

/-- Python `base64.b64decode` on a text argument (validate=False). -/
def b64decode (s : String) : Except String (List Nat) :=
  let cs := s.toList.filter (fun c => (b64Index c).isSome || c == '=')
  if cs.length % 4 ≠ 0 then
    .error "Incorrect padding"
  else
    match b64decodeVals ((cs.takeWhile (fun c => c ≠ '=')).filterMap b64Index) with
    | none => .error "Invalid base64-encoded string"
    | some bytes => .ok bytes

/-- Is a byte a UTF-8 continuation byte (`0x80..0xBF`)? -/
def isCont (b : Nat) : Bool := 0x80 ≤ b && b < 0xC0

/-- Standard UTF-8 decoding of a byte sequence, as Python `bytes.decode("UTF-8")`. -/
def utf8Decode : List Nat → Except String (List Char)
  | [] => .ok []
  | b :: rest =>
    if b < 0x80 then
      (utf8Decode rest).map (fun tl => Char.ofNat b :: tl)
    else if b < 0xC2 then
      .error "invalid start byte"
    else if b < 0xE0 then
      match rest with
      | b2 :: rest2 =>
        if isCont b2 then
          (utf8Decode rest2).map (fun tl => Char.ofNat ((b - 0xC0) * 64 + (b2 - 0x80)) :: tl)
        else .error "invalid continuation byte"
      | [] => .error "unexpected end of data"
    else if b < 0xF0 then
      match rest with
      | b2 :: b3 :: rest3 =>
        if isCont b2 && isCont b3 then
          let cp := (b - 0xE0) * 4096 + (b2 - 0x80) * 64 + (b3 - 0x80)
          if cp < 0x800 then .error "overlong encoding"
          else if 0xD800 ≤ cp && cp < 0xE000 then .error "surrogate"
          else (utf8Decode rest3).map (fun tl => Char.ofNat cp :: tl)
        else .error "invalid continuation byte"
      | _ => .error "unexpected end of data"
    else if b < 0xF5 then
      match rest with
      | b2 :: b3 :: b4 :: rest4 =>
        if isCont b2 && isCont b3 && isCont b4 then
          let cp := (b - 0xF0) * 262144 + (b2 - 0x80) * 4096 + (b3 - 0x80) * 64 + (b4 - 0x80)
          if cp < 0x10000 then .error "overlong encoding"
          else if cp > 0x10FFFF then .error "codepoint out of range"
          else (utf8Decode rest4).map (fun tl => Char.ofNat cp :: tl)
        else .error "invalid continuation byte"
      | _ => .error "unexpected end of data"
    else .error "invalid start byte"

/-- The composite `b64decode(x).decode("UTF-8")` from charm.py line 134. -/
def b64decodeUtf8 (s : String) : Except String String := do
  let bytes ← b64decode s
  let chars ← utf8Decode bytes
  return String.mk chars

/-! ### Data model

Juju config values (`self.config.get(key)`) are `Option String` — except
`juju_ca_cert`, which is modelled as the string handed to `b64decode`.
Relation data (`relation.data[unit].get(key)`) is likewise optional. -/

/-- The local Juju config store, as read by `render_config` and `snap_path`. -/
structure ConfigStore where
  collection_path : Option String
  customer : Option String
  site : Option String
  juju_endpoint : Option String
  juju_username : Option String
  juju_password : Option String
  juju_ca_cert : String
deriving DecidableEq

/-- One peer unit's databag on the `inventory-exporter` relation. -/
structure RemoteData where
  private_address : Option String
  port : Option String
  hostname : Option String
  model : Option String
deriving DecidableEq

/-- One `inventory-exporter` relation: the units iterated at line 145, in
enumeration order, each paired with its databag (`relation.data[unit]`). -/
structure Relation where
  units : List RemoteData
deriving DecidableEq

/-- External inputs read fresh by a reconciliation: the config store and
`self.model.relations.get("inventory-exporter")`. -/
structure Env where
  config : ConfigStore
  relations : List Relation
deriving DecidableEq

/-- The `settings` section of the rendered document (lines 136-138). -/
structure Settings where
  collection_path : Option String
  customer : Option String
  site : Option String
deriving DecidableEq

/-- The `juju_controller` section of the rendered document (lines 139-142). -/
structure JujuController where
  endpoint : Option String
  username : Option String
  password : Option String
  ca_cert : String
deriving DecidableEq

/-- One entry of the `targets` list (lines 148-155). -/
structure Target where
  endpoint : String
  hostname : Option String
  customer : Option String
  site : Option String
  model : Option String
deriving DecidableEq

/-- The config dict built by `render_config` (lines 126-155). -/
structure ConfigDoc where
  settings : Settings
  juju_controller : JujuController
  targets : List Target
deriving DecidableEq

/-- Python `str()` of an optional value inside an f-string: `None` renders
as the four characters `None` (line 147). -/
def pyStr : Option String → String
  | some s => s
  | none => "None"

/-- The target dict appended for one peer unit's databag (lines 147-155). -/
def mkTarget (customer site : Option String) (rd : RemoteData) : Target :=
  { endpoint := pyStr rd.private_address ++ ":" ++ pyStr rd.port
    hostname := rd.hostname
    customer := customer
    site := site
    model := rd.model }

/-- The pure document-construction part of `render_config` (lines 126-155):
decode the CA certificate, fill the three sections, and append one target
per unit of each `inventory-exporter` relation.  A `binascii.Error` or
`UnicodeDecodeError` escaping `b64decode(...).decode("UTF-8")` at line 134
is the `.error` branch. -/
def synthesize (env : Env) : Except String ConfigDoc :=
  match b64decodeUtf8 env.config.juju_ca_cert with
  | .error e => .error e
  | .ok ca_cert =>
    let customer := env.config.customer
    let site := env.config.site
    .ok
      { settings :=
          { collection_path := env.config.collection_path
            customer := customer
            site := site }
        juju_controller :=
          { endpoint := env.config.juju_endpoint
            username := env.config.juju_username
            password := env.config.juju_password
            ca_cert := ca_cert }
        targets := env.relations.flatMap (fun r => r.units.map (mkTarget customer site)) }

/-! ### YAML serialization

Line 158 writes the dict with `yaml.safe_dump`, which is deterministic and
sorts mapping keys.  `toYaml` gives the dumped mapping structure (keys in
sorted order); `yamlDump` is the serialized text (a deterministic rendering
of that structure — block style, `None` as `null`). -/

/-- A YAML value as produced by `safe_dump` of the config dict. -/
inductive YamlVal
  | scalar (v : Option String)
  | strV (s : String)
  | mapping (entries : List (String × YamlVal))
  | sequence (items : List YamlVal)

/-- The YAML mapping `safe_dump` produces for one target (keys sorted). -/
def targetYaml (t : Target) : YamlVal :=
  .mapping
    [("customer", .scalar t.customer), ("endpoint", .strV t.endpoint),
     ("hostname", .scalar t.hostname), ("model", .scalar t.model),
     ("site", .scalar t.site)]

/-- The YAML mapping `safe_dump` produces for the whole config dict
(top-level keys in sorted order). -/
def toYaml (d : ConfigDoc) : YamlVal :=
  .mapping
    [("juju_controller", .mapping
        [("ca_cert", .strV d.juju_controller.ca_cert),
         ("endpoint", .scalar d.juju_controller.endpoint),
         ("password", .scalar d.juju_controller.password),
         ("username", .scalar d.juju_controller.username)]),
     ("settings", .mapping
        [("collection_path", .scalar d.settings.collection_path),
         ("customer", .scalar d.settings.customer),
         ("site", .scalar d.settings.site)]),
     ("targets", .sequence (d.targets.map targetYaml))]

/-- Keys of a top-level YAML mapping. -/
def topLevelKeys : YamlVal → List String
  | .mapping es => es.map Prod.fst
  | _ => []

/-- Lookup of a key in a YAML mapping. -/
def ymGet : YamlVal → String → Option YamlVal
  | .mapping es, k => (es.find? (fun e => e.fst == k)).map Prod.snd
  | _, _ => none

/-- Serialization of a scalar: `safe_dump` writes Python `None` as `null`. -/
def yamlScalar : Option String → String
  | some s => s
  | none => "null"

/-- Serialized text of one entry of the `targets` sequence. -/
def yamlTarget (t : Target) : String :=
  "- customer: " ++ yamlScalar t.customer ++
  "\n  endpoint: " ++ t.endpoint ++
  "\n  hostname: " ++ yamlScalar t.hostname ++
  "\n  model: " ++ yamlScalar t.model ++
  "\n  site: " ++ yamlScalar t.site ++ "\n"

/-- Serialized text of the config document as written at line 158:
deterministic, keys sorted, one byte string per document. -/
def yamlDump (d : ConfigDoc) : String :=
  "juju_controller:\n  ca_cert: " ++ d.juju_controller.ca_cert ++
  "\n  endpoint: " ++ yamlScalar d.juju_controller.endpoint ++
  "\n  password: " ++ yamlScalar d.juju_controller.password ++
  "\n  username: " ++ yamlScalar d.juju_controller.username ++ "\n" ++
  "settings:\n  collection_path: " ++ yamlScalar d.settings.collection_path ++
  "\n  customer: " ++ yamlScalar d.settings.customer ++
  "\n  site: " ++ yamlScalar d.settings.site ++ "\n" ++
  "targets:" ++
  (if d.targets.isEmpty then " []\n"
   else "\n" ++ String.join (d.targets.map yamlTarget))

/-! ### Collector invocation

`run_collector` (lines 73-100) calls `subprocess.check_output(cmd)`.  The
spawned process is modelled as a function from the command line to a
result: either the process ran to completion with an exit code and output,
or the executable could not be launched (`FileNotFoundError`/`OSError`,
which `check_output` raises and the `except CalledProcessError` clause at
line 91 does not catch). -/

/-- Result of attempting to spawn the external collector process. -/
inductive ProcResult
  | exited (code : Nat) (output : String)
  | launchFailure (err : String)
deriving DecidableEq

/-- The process-spawning collaborator: command line to result. -/
def Exec : Type := List String → ProcResult

/-- One record emitted through `logger`. -/
structure LogRecord where
  level : String
  msg : String
deriving DecidableEq

/-- What `run_collector` communicates: the returned boolean plus the log
records it emitted (the captured process output goes to the log). -/
structure RunOutcome where
  success : Bool
  log : List LogRecord
deriving DecidableEq

/-- `" ".join(cmd)` (line 88). -/
def joinSpace (l : List String) : String := String.intercalate " " l

/-- The command list built at lines 84-86. -/
def buildCmd (dry_run : Bool) : List String :=
  let cmd := [COLLECTOR_SNAP, "-c", CONFIG_PATH]
  if dry_run then cmd ++ ["--dry-run"] else cmd

/-- `run_collector` (lines 73-100).  A completed process maps exit 0 to
`success := true` (output logged at debug) and a nonzero exit — raised as
`CalledProcessError` and caught at line 91 — to `success := false` with the
captured output logged at error.  A launch failure is not caught: the
exception escapes as `.error`. -/
def run_collector (exec : Exec) (dry_run : Bool) : Except String RunOutcome :=
  let cmd := buildCmd dry_run
  let cmd_string := joinSpace cmd
  match exec cmd with
  | .launchFailure err => .error err
  | .exited code output =>
    if code == 0 then
      .ok { success := true
            log := [{ level := "debug"
                      msg := "Execution of " ++ cmd_string ++ " successful: " ++ output }] }
    else
      .ok { success := false
            log := [{ level := "error"
                      msg := "Execution of " ++ cmd_string ++ " failed: " ++ output }] }

/-! ### Status assessment and event handlers -/

/-- `ops.model` unit statuses used by the charm (Active/Blocked set at
lines 163-167; Waiting imported; Maintenance is Juju's initial state). -/
inductive UnitStatus
  | active (msg : String)
  | blocked (msg : String)
  | waiting (msg : String)
  | maintenance (msg : String)
deriving DecidableEq

/-- `assess_status` (lines 160-167): run the probe and set the unit status;
an exception escaping `run_collector` leaves the status untouched. -/
def assess_status (exec : Exec) (status : UnitStatus) :
    Except String Unit × UnitStatus :=
  match run_collector exec true with
  | .error e => (.error e, status)
  | .ok outcome =>
    if outcome.success then (.ok (), .active "Unit ready.")
    else (.ok (), .blocked "Collector is unable to run. Please see logs.")

/-- Charm-visible mutable state: the unit status and the artifact content
at `CONFIG_PATH` (`none` when no artifact has been written yet). -/
structure CharmState where
  status : UnitStatus
  artifact : Option String
deriving DecidableEq

/-- `render_config` (lines 125-158): build the document and overwrite the
artifact with its serialization.  When synthesis raises (bad certificate),
the exception escapes before the file is opened, leaving the artifact
unchanged. -/
def render_config (env : Env) (artifact : Option String) :
    Except String Unit × Option String :=
  match synthesize env with
  | .error e => (.error e, artifact)
  | .ok doc => (.ok (), some (yamlDump doc))

/-- `_on_config_changed` (lines 110-119): `render_config` then
`assess_status`; an exception escaping either stage aborts the handler with
the state mutated so far. -/
def _on_config_changed (env : Env) (exec : Exec) (st : CharmState) :
    Except String Unit × CharmState :=
  let rendered := render_config env st.artifact
  match rendered.1 with
  | .error e => (.error e, { st with artifact := rendered.2 })
  | .ok _ =>
    let assessed := assess_status exec st.status
    (assessed.1, { status := assessed.2, artifact := rendered.2 })

/-- `_on_inventory_exporter_relation_changed` (lines 121-123), observed for
both relation-changed and relation-departed: same body as
`_on_config_changed`. -/
def _on_inventory_exporter_relation_changed (env : Env) (exec : Exec)
    (st : CharmState) : Except String Unit × CharmState :=
  _on_config_changed env exec st

/-- The terminal response delivered to the requester of the `collect`
action: `action.set_results` or `action.fail` (lines 173-175). -/
inductive ActionResponse
  | setResults (result : String)
  | fail (message : String)
deriving DecidableEq

/-- `_on_collect_action` (lines 169-175): a real (no `--dry-run`) collector
run; the unit status is never touched. -/
def _on_collect_action (exec : Exec) (st : CharmState) :
    Except String ActionResponse × CharmState :=
  match run_collector exec false with
  | .error e => (.error e, st)
  | .ok outcome =>
    if outcome.success then (.ok (.setResults "Collection completed."), st)
    else (.ok (.fail "Collection failed. See logs for more info."), st)

/-! ### Snap resource resolution and installation -/

/-- Result of `self.model.resources.fetch("collector-snap")`: a fetched
file path with its on-disk size, or a `ModelError` (resource missing). -/
inductive FetchResult
  | fetched (path : String) (size : Nat)
  | modelError
deriving DecidableEq

/-- The two instance fields set in `__init__` (lines 42-43). -/
structure SnapCache where
  _snap_path : Option String
  _is_snap_path_cached : Bool
deriving DecidableEq

/-- The `snap_path` property (lines 52-71).  Returns the resolved path,
the updated cache fields, and the number of resource fetches performed by
this access. -/
def snap_path (fetch : FetchResult) (c : SnapCache) :
    Option String × SnapCache × Nat :=
  if c._is_snap_path_cached then (c._snap_path, c, 0)
  else
    match fetch with
    | .fetched p size =>
      let v := if size > 0 then some p else none
      (v, { _snap_path := v, _is_snap_path_cached := true }, 1)
    | .modelError => (none, { _snap_path := none, _is_snap_path_cached := true }, 1)

/-- The installation step chosen by `_on_install` (lines 102-106):
`snap.install_local(path, dangerous=True)` or
`snap.ensure(..., state=Latest)`. -/
inductive InstallAction
  | installLocal (path : String)
  | ensureLatest
deriving DecidableEq

/-- `_on_install` (lines 102-108), also observed for upgrade events: pick
the installation path from `snap_path`.  (The trailing `assess_status`
call is the function modelled above.) -/
def _on_install (fetch : FetchResult) (c : SnapCache) :
    InstallAction × SnapCache :=
  let resolved := snap_path fetch c
  match resolved.1 with
  | some path => (.installLocal path, resolved.2.1)
  | none => (.ensureLatest, resolved.2.1)

/-! ### Filesystem write discipline of the persist step

Lines 157-158 run `open(CONFIG_PATH, "w")` — which truncates the file —
and then `yaml.safe_dump(config, conf_file)`, which writes the serialized
document into the open handle.  To reason about what a concurrent reader
can observe, the persist step is modelled as its sequence of filesystem
operations, and the filesystem as a map from path to content. -/

/-- Primitive filesystem operations. -/
inductive FsOp
  | openTruncate (path : String)
  | writeChunk (path : String) (data : String)
  | rename (src : String) (dst : String)
deriving DecidableEq

/-- The operations performed by the persist step for a serialized
document: a truncating open of `CONFIG_PATH` followed by the write. -/
def persistOps (content : String) : List FsOp :=
  [.openTruncate CONFIG_PATH, .writeChunk CONFIG_PATH content]

/-- Effect of one operation on the filesystem (path to content). -/
def applyOp (fs : String → String) : FsOp → String → String
  | .openTruncate p => fun q => if q = p then "" else fs q
  | .writeChunk p data => fun q => if q = p then fs q ++ data else fs q
  | .rename src dst => fun q => if q = dst then fs src else fs q

/-- Is the operation a rename? -/
def isRename : FsOp → Bool
  | .rename _ _ => true
  | _ => false

/-- All filesystem states reached while a sequence of operations runs,
including the initial and final states. -/
def fsStates (fs : String → String) : List FsOp → List (String → String)
  | [] => [fs]
  | op :: ops => fs :: fsStates (applyOp fs op) ops

/-- The contents of `CONFIG_PATH` a concurrent reader can observe while
the operations run. -/
def observableArtifact (fs : String → String) (ops : List FsOp) : List String :=
  (fsStates fs ops).map (fun f => f CONFIG_PATH)

/-! ### Concrete fixtures

Stub collector processes and the concrete scenario of the specification
(§8): settings `/data`/`acme`/`dc1`, controller `10.0.0.1:17070`, cert
`base64("CERT") = "Q0VSVA=="`, one peer at `10.0.0.2:9100`. -/

/-- Stub collector that always exits 0. -/
def execOk : Exec := fun _ => .exited 0 ""

/-- Stub collector that always exits 1 with output `boom`. -/
def execFail : Exec := fun _ => .exited 1 "boom"

/-- Stub environment in which the collector executable cannot be
launched. -/
def execNoFile : Exec := fun _ => .launchFailure "FileNotFoundError"

/-- The specification's concrete scenario environment. -/
def envScenario : Env :=
  { config :=
      { collection_path := some "/data"
        customer := some "acme"
        site := some "dc1"
        juju_endpoint := some "10.0.0.1:17070"
        juju_username := some "admin"
        juju_password := some "x"
        juju_ca_cert := "Q0VSVA==" }
    relations :=
      [{ units :=
           [{ private_address := some "10.0.0.2"
              port := some "9100"
              hostname := some "h1"
              model := some "m1" }] }] }

/-- The scenario environment with an undecodable certificate value. -/
def envBadCert : Env :=
  { envScenario with
      config := { envScenario.config with juju_ca_cert := "A" } }

/-- The single target of the scenario document. -/
def targetScenario : Target :=
  { endpoint := "10.0.0.2:9100"
    hostname := some "h1"
    customer := some "acme"
    site := some "dc1"
    model := some "m1" }

/-- The document synthesized from the scenario environment. -/
def docScenario : ConfigDoc :=
  { settings :=
      { collection_path := some "/data", customer := some "acme", site := some "dc1" }
    juju_controller :=
      { endpoint := some "10.0.0.1:17070", username := some "admin"
        password := some "x", ca_cert := "CERT" }
    targets := [targetScenario] }

/-- The ordered sequence of peer databags produced by the topology
provider: relations in enumeration order, then units within each relation
in enumeration order (the iteration at lines 144-146). -/
def listPeerTargets (env : Env) : List RemoteData :=
  env.relations.flatMap (fun r => r.units)

/-! ### Helper lemmas -/

theorem flatMap_units_map (rel : List Relation) (f : RemoteData → Target) :
    rel.flatMap (fun r => r.units.map f) = (rel.flatMap (fun r => r.units)).map f := by
  induction rel with
  | nil => rfl
  | cons r rs ih => simp [List.flatMap_cons, ih]

theorem synthesize_ok_iff (env : Env) (doc : ConfigDoc) (h : synthesize env = .ok doc) :
    ∀ cert, b64decodeUtf8 env.config.juju_ca_cert = .ok cert →
      doc =
        { settings :=
            { collection_path := env.config.collection_path
              customer := env.config.customer
              site := env.config.site }
          juju_controller :=
            { endpoint := env.config.juju_endpoint
              username := env.config.juju_username
              password := env.config.juju_password
              ca_cert := cert }
          targets := env.relations.flatMap (fun r =>
            r.units.map (mkTarget env.config.customer env.config.site)) } := by
  intro cert hc
  rw [synthesize, hc] at h
  exact (Except.ok.injEq _ _ ▸ h.symm)

theorem synthesize_error_of_decode (env : Env) (e : String)
    (h : b64decodeUtf8 env.config.juju_ca_cert = .error e) :
    synthesize env = .error e := by
  rw [synthesize, h]

theorem synthesize_not_error (env : Env) (doc : ConfigDoc)
    (h : synthesize env = .ok doc) :
    ∃ cert, b64decodeUtf8 env.config.juju_ca_cert = .ok cert := by
  cases hb : b64decodeUtf8 env.config.juju_ca_cert with
  | error e => rw [synthesize, hb] at h; exact absurd h (by simp)
  | ok cert => exact ⟨cert, rfl⟩

/-- Closed form of `_on_config_changed` by cases on the two external
outcomes. -/
theorem on_config_changed_closed (env : Env) (exec : Exec) (st : CharmState) :
    _on_config_changed env exec st =
      match synthesize env with
      | .error e => (.error e, st)
      | .ok doc =>
        match run_collector exec true with
        | .error e2 => (.error e2, ⟨st.status, some (yamlDump doc)⟩)
        | .ok outcome =>
          if outcome.success then
            (.ok (), ⟨.active "Unit ready.", some (yamlDump doc)⟩)
          else
            (.ok (), ⟨.blocked "Collector is unable to run. Please see logs.",
              some (yamlDump doc)⟩) := by
  cases hs : synthesize env with
  | error e => simp [_on_config_changed, render_config, hs]
  | ok doc =>
    cases hr : run_collector exec true with
    | error e2 => simp [_on_config_changed, render_config, assess_status, hs, hr]
    | ok outcome =>
      by_cases hsucc : outcome.success <;>
        simp [_on_config_changed, render_config, assess_status, hs, hr, hsucc]

/-! ### Claims -/

/-- C1 (corrected): for every reconciliation whose probe process actually
launches and completes, the status after `assess_status` is Active with
message `"Unit ready."` (with a trailing period, unlike the claimed
`"Unit ready"`) exactly when the probe exited 0, and otherwise Blocked
with message `"Collector is unable to run. Please see logs."`; these are
the only two statuses `assess_status` ever sets. -/
theorem c1_assess_status_two_statuses (exec : Exec) (status : UnitStatus)
    (code : Nat) (out : String) (h : exec (buildCmd true) = .exited code out) :
    assess_status exec status =
      (.ok (), if code == 0 then UnitStatus.active "Unit ready."
               else UnitStatus.blocked "Collector is unable to run. Please see logs.") := by
  by_cases hc : code == 0 <;> simp [assess_status, run_collector, h, hc]

/-- C1 counterexample: with a succeeding probe, the Ready status string is
`"Unit ready."`, not the claimed `"Unit ready"`. -/
theorem c1_unit_ready_string_cex :
    (assess_status execOk (UnitStatus.maintenance "")).2 =
      UnitStatus.active "Unit ready." ∧
    (assess_status execOk (UnitStatus.maintenance "")).2 ≠
      UnitStatus.active "Unit ready" := by
  exact ⟨rfl, by decide⟩

/-- C1 witness: a probe exiting 0 yields the Active status. -/
theorem c1_assess_status_two_statuses_witness :
    assess_status execOk (UnitStatus.maintenance "") =
      (.ok (), UnitStatus.active "Unit ready.") := by
  have h := c1_assess_status_two_statuses execOk (UnitStatus.maintenance "") 0 "" rfl
  simpa using h

/-- C2: synthesis is deterministic — whenever it succeeds it writes the
same bytes regardless of the previous artifact state — and reconciliation
is idempotent: reapplying `_on_config_changed` to the state it produced
yields the same result and the same state (hence the same HealthState and
byte-identical artifact on every repetition with unchanged external
state). -/
theorem c2_reconcile_deterministic_idempotent (env : Env) (exec : Exec)
    (st : CharmState) :
    _on_config_changed env exec (_on_config_changed env exec st).2 =
      _on_config_changed env exec st ∧
    ∀ doc, synthesize env = .ok doc →
      ∀ a b : Option String,
        render_config env a = (.ok (), some (yamlDump doc)) ∧
        (render_config env a).2 = (render_config env b).2 := by
  constructor
  · rw [on_config_changed_closed env exec st]
    cases hs : synthesize env with
    | error e => simp [on_config_changed_closed, hs]
    | ok doc =>
      cases hr : run_collector exec true with
      | error e2 => simp [on_config_changed_closed, hs, hr]
      | ok outcome =>
        by_cases hsucc : outcome.success <;>
          simp [on_config_changed_closed, hs, hr, hsucc]
  · intro doc hdoc a b
    simp [render_config, hdoc]

/-- C2 witness: on the scenario environment with a succeeding collector,
reconciling the already-reconciled state reproduces it, and synthesis from
any prior artifact state writes the scenario document's bytes. -/
theorem c2_reconcile_deterministic_idempotent_witness :
    _on_config_changed envScenario execOk
        (_on_config_changed envScenario execOk ⟨UnitStatus.maintenance "", none⟩).2 =
      _on_config_changed envScenario execOk ⟨UnitStatus.maintenance "", none⟩ ∧
    render_config envScenario none = (.ok (), some (yamlDump docScenario)) := by
  refine ⟨(c2_reconcile_deterministic_idempotent envScenario execOk
      ⟨UnitStatus.maintenance "", none⟩).1, ?_⟩
  exact ((c2_reconcile_deterministic_idempotent envScenario execOk
      ⟨UnitStatus.maintenance "", none⟩).2 docScenario rfl none none).1

/-- C3 (corrected): when the collector process completes, `run_collector`
returns `success := (exit code = 0)` and, on a nonzero exit, logs the
captured error output instead of raising; but when the executable fails to
launch, the exception is not caught and propagates to the caller. -/
theorem c3_run_collector_outcome (exec : Exec) (dry_run : Bool) :
    (∀ code out, exec (buildCmd dry_run) = .exited code out →
      run_collector exec dry_run =
        .ok { success := code == 0
              log := [{ level := if code == 0 then "debug" else "error"
                        msg := "Execution of " ++ joinSpace (buildCmd dry_run) ++
                          (if code == 0 then " successful: " else " failed: ") ++ out }] }) ∧
    (∀ err, exec (buildCmd dry_run) = .launchFailure err →
      run_collector exec dry_run = .error err) := by
  constructor
  · intro code out h
    by_cases hc : code == 0 <;> simp [run_collector, h, hc]
  · intro err h
    simp [run_collector, h]

/-- C3 counterexample: a failure to launch the executable is propagated as
an error, not returned as `success := false`. -/
theorem c3_launch_failure_cex :
    run_collector execNoFile false = .error "FileNotFoundError" := rfl

/-- C3 witness: a nonzero exit yields `success := false` with the captured
output in the error log. -/
theorem c3_run_collector_outcome_witness :
    run_collector execFail false =
      .ok { success := false
            log := [{ level := "error"
                      msg := "Execution of " ++ joinSpace (buildCmd false) ++
                        " failed: boom" }] } := by
  have h := (c3_run_collector_outcome execFail false).1 1 "boom" rfl
  simpa using h

/-- C4 (corrected): every persist fully replaces the artifact — the final
content of `CONFIG_PATH` is exactly the serialized document, independent of
whatever was there before, with no partial/merge write — but the write is
performed in place by a truncating open followed by the write, not by
write-to-temp-then-rename, so it is not atomic for concurrent readers. -/
theorem c4_persist_full_replace (fs : String → String) (content : String) :
    ((persistOps content).foldl applyOp fs) CONFIG_PATH = content ∧
    (persistOps content).all (fun op => !(isRename op)) = true := by
  refine ⟨?_, rfl⟩
  simp [persistOps, applyOp]

/-- C4 counterexample: with a previous artifact `old` and a new document
`new`, a reader interleaved with the persist step can observe the empty
truncated file, which is neither the old nor the new document — the write
is not atomic, and no rename is performed. -/
theorem c4_persist_not_atomic_cex :
    observableArtifact (fun _ => "old") (persistOps "new") = ["old", "", "new"] ∧
    "" ≠ "old" ∧ "" ≠ "new" ∧
    (persistOps "new").all (fun op => !(isRename op)) = true := by
  exact ⟨rfl, by decide, by decide, rfl⟩

/-- C5: the `ca_cert` credential placed in the document is exactly the
result of base64-decoding the configured value to UTF-8 text (synthesis
succeeds precisely when decoding does, with the same error otherwise), and
when decoding fails the reconciliation handler propagates that error and
leaves the charm state — in particular the previously persisted artifact —
unchanged. -/
theorem c5_ca_cert_decode_propagates (env : Env) (exec : Exec) (st : CharmState) :
    (synthesize env).map (fun d => d.juju_controller.ca_cert) =
      b64decodeUtf8 env.config.juju_ca_cert ∧
    ∀ e, b64decodeUtf8 env.config.juju_ca_cert = .error e →
      _on_config_changed env exec st = (.error e, st) := by
  constructor
  · cases hb : b64decodeUtf8 env.config.juju_ca_cert with
    | error e => simp [synthesize, hb, Except.map]
    | ok cert => simp [synthesize, hb, Except.map]
  · intro e he
    have hs : synthesize env = .error e := synthesize_error_of_decode env e he
    simp [_on_config_changed, render_config, hs]

/-- C5 witness: an undecodable certificate value makes the handler
propagate the padding error and keep the previous artifact. -/
theorem c5_ca_cert_decode_propagates_witness :
    _on_config_changed envBadCert execOk
        ⟨UnitStatus.maintenance "", some "previous"⟩ =
      (.error "Incorrect padding", ⟨UnitStatus.maintenance "", some "previous"⟩) :=
  (c5_ca_cert_decode_propagates envBadCert execOk
    ⟨UnitStatus.maintenance "", some "previous"⟩).2 "Incorrect padding" rfl

/-- C6: the synthesized document's targets are exactly the image, in the
same relative order and without deduplication, of the topology provider's
sequence of peer databags, and each target's endpoint is the peer-supplied
address and port joined with a colon. -/
theorem c6_targets_order_endpoints (env : Env) (doc : ConfigDoc)
    (h : synthesize env = .ok doc) :
    doc.targets =
      (listPeerTargets env).map (fun rd =>
        { endpoint := pyStr rd.private_address ++ ":" ++ pyStr rd.port
          hostname := rd.hostname
          customer := env.config.customer
          site := env.config.site
          model := rd.model }) := by
  obtain ⟨cert, hb⟩ := synthesize_not_error env doc h
  rw [synthesize_ok_iff env doc h cert hb]
  rw [listPeerTargets, ← flatMap_units_map]
  rfl

/-- C6 witness: the scenario document's single target is the image of the
single peer databag, with endpoint `10.0.0.2:9100`. -/
theorem c6_targets_order_endpoints_witness :
    docScenario.targets =
      (listPeerTargets envScenario).map (fun rd =>
        { endpoint := pyStr rd.private_address ++ ":" ++ pyStr rd.port
          hostname := rd.hostname
          customer := envScenario.config.customer
          site := envScenario.config.site
          model := rd.model }) :=
  c6_targets_order_endpoints envScenario docScenario rfl

/-- C7 (corrected): the persisted document has exactly the three top-level
sections `settings`, `juju_controller` (not `controller` as claimed) and
`targets`; the `juju_controller` section has exactly the fields `ca_cert`,
`endpoint`, `password` and `username`, with `ca_cert` holding the decoded
certificate text. -/
theorem c7_artifact_sections (env : Env) (doc : ConfigDoc)
    (h : synthesize env = .ok doc) :
    topLevelKeys (toYaml doc) = ["juju_controller", "settings", "targets"] ∧
    ymGet (toYaml doc) "juju_controller" =
      some (.mapping
        [("ca_cert", .strV doc.juju_controller.ca_cert),
         ("endpoint", .scalar doc.juju_controller.endpoint),
         ("password", .scalar doc.juju_controller.password),
         ("username", .scalar doc.juju_controller.username)]) ∧
    b64decodeUtf8 env.config.juju_ca_cert = .ok doc.juju_controller.ca_cert := by
  refine ⟨rfl, rfl, ?_⟩
  obtain ⟨cert, hb⟩ := synthesize_not_error env doc h
  rw [synthesize_ok_iff env doc h cert hb]
  exact hb

/-- C7 counterexample: the controller section of the artifact is keyed
`juju_controller`; there is no top-level key `controller`. -/
theorem c7_controller_key_cex :
    topLevelKeys (toYaml docScenario) = ["juju_controller", "settings", "targets"] ∧
    "controller" ∉ topLevelKeys (toYaml docScenario) := by
  exact ⟨rfl, by decide⟩

/-- C7 witness: the scenario document's sections and controller fields,
with `ca_cert` equal to the decoded certificate `CERT`. -/
theorem c7_artifact_sections_witness :
    topLevelKeys (toYaml docScenario) = ["juju_controller", "settings", "targets"] ∧
    ymGet (toYaml docScenario) "juju_controller" =
      some (.mapping
        [("ca_cert", .strV docScenario.juju_controller.ca_cert),
         ("endpoint", .scalar docScenario.juju_controller.endpoint),
         ("password", .scalar docScenario.juju_controller.password),
         ("username", .scalar docScenario.juju_controller.username)]) ∧
    b64decodeUtf8 envScenario.config.juju_ca_cert =
      .ok docScenario.juju_controller.ca_cert :=
  c7_artifact_sections envScenario docScenario rfl

/-- C8: the on-demand collect action invokes the collector in real mode
(the command carries no `--dry-run` flag), never changes the charm state —
in particular the previously held unit status — and, whenever the process
completes, delivers a terminal Completed or Failed response to the
requester. -/
theorem c8_collect_action_frame (exec : Exec) (st : CharmState) :
    ("--dry-run" ∉ buildCmd false) ∧
    (_on_collect_action exec st).2 = st ∧
    (∀ code out, exec (buildCmd false) = .exited code out →
      (_on_collect_action exec st).1 =
        .ok (if code == 0 then ActionResponse.setResults "Collection completed."
             else ActionResponse.fail "Collection failed. See logs for more info.")) := by
  refine ⟨by decide, ?_, ?_⟩
  · cases hr : run_collector exec false with
    | error e => simp [_on_collect_action, hr]
    | ok outcome =>
      by_cases hsucc : outcome.success <;> simp [_on_collect_action, hr, hsucc]
  · intro code out h
    by_cases hc : code == 0 <;> simp [_on_collect_action, run_collector, h, hc]

/-- C8 witness: a failing real collection returns the Failed response and
leaves a previously Ready state untouched. -/
theorem c8_collect_action_frame_witness :
    (_on_collect_action execFail
        ⟨UnitStatus.active "Unit ready.", some "artifact"⟩).2 =
      ⟨UnitStatus.active "Unit ready.", some "artifact"⟩ ∧
    (_on_collect_action execFail
        ⟨UnitStatus.active "Unit ready.", some "artifact"⟩).1 =
      .ok (ActionResponse.fail "Collection failed. See logs for more info.") := by
  refine ⟨(c8_collect_action_frame execFail
      ⟨UnitStatus.active "Unit ready.", some "artifact"⟩).2.1, ?_⟩
  have h := (c8_collect_action_frame execFail
      ⟨UnitStatus.active "Unit ready.", some "artifact"⟩).2.2 1 "boom" rfl
  simpa using h

/-- C9: every target of a synthesized document carries the local
configuration's `customer` and `site` values, never peer-provided ones. -/
theorem c9_targets_inherit_settings (env : Env) (doc : ConfigDoc)
    (h : synthesize env = .ok doc) :
    ∀ t ∈ doc.targets,
      t.customer = env.config.customer ∧ t.site = env.config.site := by
  intro t ht
  obtain ⟨cert, hb⟩ := synthesize_not_error env doc h
  rw [synthesize_ok_iff env doc h cert hb] at ht
  simp only [List.mem_flatMap, List.mem_map] at ht
  obtain ⟨r, _, rd, _, rfl⟩ := ht
  exact ⟨rfl, rfl⟩

/-- C9 witness: the scenario target carries the local `acme`/`dc1`
values. -/
theorem c9_targets_inherit_settings_witness :
    targetScenario.customer = envScenario.config.customer ∧
    targetScenario.site = envScenario.config.site :=
  c9_targets_inherit_settings envScenario docScenario rfl targetScenario
    (by decide)

/-- C10: an uncached `snap_path` access performs exactly one resource
fetch and caches its result; any access to a cached state returns the
cached value with no fetch, so within one process lifetime the fetch runs
at most once; a missing resource or a fetched file of size zero resolves
to `none`; and `_on_install` installs the local file exactly when the path
resolved, falling back to the ensure-installed path otherwise. -/
theorem c10_snap_path_resolution (fetch fetch2 : FetchResult) (c : SnapCache)
    (p : String) :
    (c._is_snap_path_cached = false →
      (snap_path fetch c).2.2 = 1 ∧
      (snap_path fetch c).2.1 =
        { _snap_path := (snap_path fetch c).1, _is_snap_path_cached := true }) ∧
    (c._is_snap_path_cached = true →
      snap_path fetch2 c = (c._snap_path, c, 0)) ∧
    (snap_path fetch2 (snap_path fetch c).2.1 =
      ((snap_path fetch c).1, (snap_path fetch c).2.1, 0)) ∧
    ((snap_path .modelError
        { _snap_path := none, _is_snap_path_cached := false }).1 = none) ∧
    ((snap_path (.fetched p 0)
        { _snap_path := none, _is_snap_path_cached := false }).1 = none) ∧
    ((snap_path fetch c).1 = none → (_on_install fetch c).1 = .ensureLatest) ∧
    (∀ q, (snap_path fetch c).1 = some q →
      (_on_install fetch c).1 = .installLocal q) := by
  obtain ⟨v, cached⟩ := c
  cases cached with
  | true =>
    cases v <;>
      simp [snap_path, _on_install]
  | false =>
    cases fetch with
    | modelError => simp [snap_path, _on_install]
    | fetched q size =>
      by_cases hsz : size > 0 <;>
        simp [snap_path, _on_install, hsz]

/-- C10 witness: a first access with an attached nonempty resource fetches
once; install with a missing resource falls back to ensure-installed. -/
theorem c10_snap_path_resolution_witness :
    ((snap_path (.fetched "/res/collector.snap" 5)
        { _snap_path := none, _is_snap_path_cached := false }).2.2 = 1) ∧
    ((_on_install .modelError
        { _snap_path := none, _is_snap_path_cached := false }).1 =
      InstallAction.ensureLatest) := by
  refine ⟨((c10_snap_path_resolution (.fetched "/res/collector.snap" 5)
      .modelError { _snap_path := none, _is_snap_path_cached := false } "x").1
      rfl).1, ?_⟩
  exact (c10_snap_path_resolution .modelError .modelError
      { _snap_path := none, _is_snap_path_cached := false } "x").2.2.2.2.2.1 rfl

end InventoryCollector
